import Mathlib

/-!
# haoEasyApi: the serving layer (`serv/serv.go`) and the route-guide example

A shallow embedding of `serv/serv.go` and `examples/routeGuide/get_feature.go`.

* A Go `map[string]API` is an association list with at most one entry per key
  (`mapSet` replaces, `mapGet` looks up).
* A `*gin.Context` is a value of `Context`: the parts of the request the code
  reads, and the `log` of everything the code does to the response writer, in
  order. Looking an id up and invoking a handler are logged too, so that
  "no handler is invoked" is a statement about the log.
* A Go panic is an explicit outcome (`Outcome.panic`, `CallOutcome.panic`).
* Library functions and declarations outside the sources (`strings.ToLower`,
  `common.ERROR_TYPE_DEFAULT`, the swagger generator, the JSON decoder) are
  parameters.
-/

set_option autoImplicit false

namespace EasyApi

/-! ## Data model -/

/-- A Go byte slice, one number per byte. -/
abbrev Bytes := List Nat

/-- A decoded JSON value tree; a Go `interface{}` holding `nil` is `null`. A
number written without a fraction is an `int`, any other number a `float`,
kept as the exact decimal it denotes. -/
inductive Value where
  | null
  | int (n : Int)
  | float (q : Rat)
  | str (s : String)
  | bool (b : Bool)
  | obj (fields : List (String × Value))
  | arr (items : List Value)

/-- The `APIError` of `serv.go` lines 146-149: a code and a message. The code is
whatever `common.ERROR_TYPE_DEFAULT` is; it is kept as a string. -/
structure APIError where
  Code : String
  Message : String
  deriving DecidableEq, Repr

/-- What `c.JSON` is asked to serialise. -/
inductive JSONObj where
  /-- the `response interface{}` of `handleCall` -/
  | response (r : Value)
  /-- the `apiErr *APIError` of `handleError` (`none` is a nil pointer) -/
  | apiError (e : Option APIError)
  /-- the empty `gin.H{}` of `runOpthionCall` -/
  | h

/-- One thing done to the gin context. -/
inductive Event where
  /-- `c.Writer.Header().Set(key, value)` -/
  | setHeader (key value : String)
  /-- `c.Writer.Header().Add(key, value)` -/
  | addHeader (key value : String)
  /-- `c.String(code, body)` -/
  | string (code : Nat) (body : String)
  /-- `c.JSON(code, obj)` -/
  | json (code : Nat) (obj : JSONObj)
  /-- `apiMap[id]` was evaluated -/
  | lookup (id : String)
  /-- `api.Call(body, c)` was entered for the record stored under `id` -/
  | call (id : String) (body : Bytes)

/-- The request as `runAPICall` reads it. -/
structure Request where
  /-- `c.Request.Header.Get` -/
  Header : String → String
  /-- the result of `ioutil.ReadAll(c.Request.Body)`: the bytes, or the text of the error -/
  Body : Except String Bytes

/-- A `*gin.Context`. -/
structure Context where
  Request : Request
  /-- `c.Param` -/
  Param : String → String
  /-- everything done to the context so far, oldest first -/
  log : List Event

/-- What a handler call does: it returns a response and an optional error, or
it panics; either way it may have used the context. -/
inductive CallOutcome where
  | ret (c : Context) (response : Value) (apiErr : Option APIError)
  | panic (c : Context) (value : String)

/-- The kind of a field (spec section 3, Schema Descriptor). -/
inductive Kind where
  | integer
  | float
  | string
  | boolean
  | object
  | arrayOf (k : Kind)
  deriving DecidableEq, Repr

/-- Modelled from the spec: the schema extractor is not among the sources. One
field of a Schema Descriptor (spec section 3): its name, kind, required-ness,
the constraints `min`, `max`, `allowed-values`, the description, and the child
descriptor of an object or array-of-object field. A shape is the list of its
fields in declaration order. -/
inductive Descriptor where
  | mk (fieldName : String) (kind : Kind) (required : Bool) (min max : Option Int)
      (allowedValues : Option (List String)) (description : String)
      (nested : List Descriptor)

abbrev Shape := List Descriptor

/-- The reasons of a Constraint Violation (spec section 3). -/
inductive Reason where
  | missingRequired
  | typeMismatch
  | belowMin
  | aboveMax
  | notInEnum
  | malformedPayload
  deriving DecidableEq, Repr

/-- A Constraint Violation (spec section 3). -/
structure ConstraintViolation where
  fieldPath : List String
  reason : Reason
  deriving DecidableEq, Repr

/-- Modelled from the spec: the declaration of `APIDoc` is not among the
sources; `serv.go` reads only its `ID`. The spec gives a registration record an
`id`, a free-text `summary`, and a request and a response schema. -/
structure APIDoc where
  ID : String
  Summary : String
  Request : Shape
  Response : Shape

/-- The `API` interface: `Doc()` and `Call(body, c)`. -/
structure API where
  Doc : APIDoc
  Call : Bytes → Context → CallOutcome

abbrev APISet := List API
abbrev APISets := List APISet

/-- The fields of `APIServConf` that `serv.go` uses (lines 112-118). -/
structure APIServConf where
  Version : String
  BuildTime : String
  ServiceName : String
  Description : String
  ListenAddr : String
  DebugOn : Bool
  HTTPProxy : String
  deriving DecidableEq, Repr

/-- What `serv.go` takes from outside the sources. -/
structure Lib where
  /-- `common.ERROR_TYPE_DEFAULT` -/
  ERROR_TYPE_DEFAULT : String
  /-- `strings.ToLower` -/
  ToLower : String → String

/-! ## Go maps -/

/-- A `map[string]V`. -/
abbrev GoMap (V : Type) := List (String × V)

/-- The assignment `m[k] = v`. -/
def mapSet {V : Type} : GoMap V → String → V → GoMap V
  | [], k, v => [(k, v)]
  | (k', v') :: t, k, v => if k' = k then (k, v) :: t else (k', v') :: mapSet t k v

/-- The lookup `v, ok := m[k]`. -/
def mapGet {V : Type} : GoMap V → String → Option V
  | [], _ => none
  | (k', v) :: t, k => if k' = k then some v else mapGet t k

/-- The keys of a map. -/
def mapKeys {V : Type} (m : GoMap V) : List String := m.map Prod.fst

/-! ## `serv.go` -/

/-- The body of the inner loop of `getApiMap` (lines 18-21). -/
def getApiMapSet (apiMap : GoMap API) (set : APISet) : GoMap API :=
  set.foldl (fun m api => mapSet m api.Doc.ID api) apiMap

/-- Source `getApiMap` (lines 15-24). -/
def getApiMap (setsOfAPIs : APISets) : GoMap API :=
  setsOfAPIs.foldl getApiMapSet []

/-- Source `getPath` (lines 131-133). -/
def getPath (conf : APIServConf) (apiID : String) : String :=
  "/" ++ conf.ServiceName ++ "/" ++ conf.Version ++ "/" ++ apiID

/-- Source `getBasePath` (lines 135-137). -/
def getBasePath (conf : APIServConf) : String :=
  "/" ++ conf.ServiceName ++ "/" ++ conf.Version

/-- The parameter name of `RunAPIServ` (line 33). -/
def Key : String := "id"

/-- The route `RunAPIServ` registers for POST and OPTIONS (line 34). -/
def routePath (conf : APIServConf) : String :=
  getBasePath conf ++ "/:" ++ Key

/-- Appending to the log. -/
def Context.emit (c : Context) (e : Event) : Context :=
  { c with log := c.log ++ [e] }

/-- Source `cors` (lines 200-204). -/
def cors (c : Context) (origin : String) : Context :=
  ((c.emit (.setHeader "Access-Control-Allow-Methods" "POST, GET, OPTIONS")).emit
    (.setHeader "Access-Control-Allow-Headers"
      "Access-Control-Allow-Origin,Access-Control-Allow-Method,Content-Type")).emit
    (.setHeader "Access-Control-Allow-Origin" origin)

/-- Source `handleNotFound` (lines 176-178). -/
def handleNotFound (c : Context) : Context :=
  c.emit (.string 500 "")

/-- Source `handleCall` (lines 180-183); `apiErr` is not used. -/
def handleCall (c : Context) (response : Value) (_apiErr : Option APIError) : Context :=
  (c.emit (.setHeader "content-type" "application/json")).emit (.json 200 (.response response))

/-- Source `handleError` (lines 185-188). -/
def handleError (c : Context) (apiErr : Option APIError) : Context :=
  (c.emit (.setHeader "content-type" "application/json")).emit (.json 403 (.apiError apiErr))

/-- Source `runOpthionCall` (lines 190-198). -/
def runOpthionCall (c : Context) : Context :=
  (((((c.emit (.setHeader "Access-Control-Allow-Methods" "POST, GET, OPTIONS")).emit
    (.setHeader "Access-Control-Allow-Headers"
      "Access-Control-Allow-Origin,Access-Control-Allow-Method,Content-Type")).emit
    (.setHeader "Access-Control-Allow-Origin" "*")).emit
    (.addHeader "Access-Control-Allow-Headers" "Content-Type")).emit
    (.setHeader "content-type" "application/json")).emit
    (.json 200 .h)

/-- Whether `sub` occurs in `s`, on characters. -/
def containsChars : List Char → List Char → Bool
  | [], sub => sub.isEmpty
  | a :: t, sub => sub.isPrefixOf (a :: t) || containsChars t sub

/-- The library `strings.Contains`. -/
def Contains (s substr : String) : Bool :=
  containsChars s.data substr.data

/-- How a request handler of the router ends: it returns, or a panic leaves it. -/
inductive Outcome where
  | done (c : Context)
  | panic (c : Context) (value : String)

/-- Source `runAPICall` (lines 139-165). -/
def runAPICall (lib : Lib) (apiMap : GoMap API) (c : Context) (key : String) : Outcome :=
  let c := cors c "*"
  let contentType := c.Request.Header "Content-Type"
  let contentType := lib.ToLower contentType
  if Contains contentType "application/json" then
    match c.Request.Body with
    | .error err =>
      .done (handleError c (some { Code := lib.ERROR_TYPE_DEFAULT, Message := err }))
    | .ok body =>
      let c := c.emit (.lookup (c.Param key))
      match mapGet apiMap (c.Param key) with
      | none => .done (handleNotFound c)
      | some api =>
        match api.Call body (c.emit (.call (c.Param key) body)) with
        | .panic c value => .panic c value
        | .ret c response apiErr => .done (handleCall c response apiErr)
  else
    .done (handleError c
      (some { Code := lib.ERROR_TYPE_DEFAULT, Message := "invalid content-type " ++ contentType }))

/-- Source `runAPIOpthionCall` (lines 167-174). -/
def runAPIOpthionCall (apiMap : GoMap API) (c : Context) (key : String) : Context :=
  let c := c.emit (.lookup (c.Param key))
  match mapGet apiMap (c.Param key) with
  | none => handleNotFound c
  | some _ => runOpthionCall c

/-- The conf `genSwagger` hands to `swagger.GenCode`, field by field (lines 111-119). -/
def toCommonConf (conf : APIServConf) : APIServConf :=
  { Version := conf.Version
    BuildTime := conf.BuildTime
    ServiceName := conf.ServiceName
    Description := conf.Description
    ListenAddr := conf.ListenAddr
    DebugOn := conf.DebugOn
    HTTPProxy := conf.HTTPProxy }

/-- What `genSwagger` calls outside the sources. A call that panics is
`.error value`, with `value` the (non-nil) panic value as `%v` prints it; a
marshaller that returns hands back its text and its `error` (`none` is nil). -/
structure SwaggerLib (DocList Swagger : Type) where
  genAPIDocList : APIServConf → APISets → Except String DocList
  GenCode : APIServConf → DocList → Except String Swagger
  MarshalJSON : Swagger → Except String (String × Option String)
  MarshalYAML : Swagger → Except String (String × Option String)

/-- The statements of `genSwagger` after the `defer` (lines 110-128): the three
results of the `return` reached, or the value of the panic that ended them. -/
def genSwaggerBody {DocList Swagger : Type} (sw : SwaggerLib DocList Swagger)
    (conf : APIServConf) (setsOfAPIs : APISets) :
    Except String (String × String × Option String) :=
  match sw.genAPIDocList conf setsOfAPIs with
  | .error p => .error p
  | .ok docList =>
    match sw.GenCode (toCommonConf conf) docList with
    | .error p => .error p
    | .ok swagger =>
      match sw.MarshalJSON swagger with
      | .error p => .error p
      | .ok (jsonData, err) =>
        if err.isSome then .ok ("", "", none)
        else
          match sw.MarshalYAML swagger with
          | .error p => .error p
          | .ok (yamlData, err) =>
            if err.isSome then .ok ("", "", none)
            else .ok (jsonData, yamlData, none)

/-- Source `genSwagger` (lines 102-129). A panic is recovered by the deferred
function, which sets `err`; the two strings are then still empty, no `return`
having assigned them. -/
def genSwagger {DocList Swagger : Type} (sw : SwaggerLib DocList Swagger)
    (conf : APIServConf) (setsOfAPIs : APISets) : String × String × Option String :=
  match genSwaggerBody sw conf setsOfAPIs with
  | .error p => ("", "", some ("internal error: " ++ p))
  | .ok r => r

/-- The lines `initHTML` prints (lines 65-68): the warning, when `err` is not nil. -/
def initHTMLPrinted {DocList Swagger : Type} (sw : SwaggerLib DocList Swagger)
    (conf : APIServConf) (setsOfAPIs : APISets) : List String :=
  match (genSwagger sw conf setsOfAPIs).2.2 with
  | some err => ["Warn:  " ++ err]
  | none => []

/-! ## The Constraint Validator (spec section 4.2) -/

/-- The value of a field of a decoded object, if the field is present. -/
def lookupField : List (String × Value) → String → Option Value
  | [], _ => none
  | (k, v) :: t, name => if k = name then some v else lookupField t name

/-- Modelled from the spec: part of the validator, which is not among the
sources. Whether a decoded value has the declared kind (spec 4.2,
`type-mismatch`); a number without a fraction is also a float. -/
def kindMatches : Kind → Value → Bool
  | .integer, .int _ => true
  | .float, .int _ => true
  | .float, .float _ => true
  | .string, .str _ => true
  | .boolean, .bool _ => true
  | .object, .obj _ => true
  | .arrayOf k, .arr items => items.all (kindMatches k)
  | _, _ => false

/-- Modelled from the spec: part of the validator, which is not among the
sources. The bounds check of a numeric value (spec 4.2): `below-min` under
`min`, `above-max` over `max`, both ends inclusive. -/
def checkBounds (min max : Option Int) (q : Rat) : Option Reason :=
  if min.any (fun m => q < (m : Rat)) then some .belowMin
  else if max.any (fun m => (m : Rat) < q) then some .aboveMax
  else none

/-- A nested violation, its path prefixed with the parent field. -/
def prefixPath (name : String) : Option ConstraintViolation → Option ConstraintViolation
  | none => none
  | some v => some { v with fieldPath := name :: v.fieldPath }

/-- A violation at the field itself. -/
def atField (name : String) : Option Reason → Option ConstraintViolation
  | none => none
  | some r => some ⟨[name], r⟩

mutual
/-- Modelled from the spec: the validator is not among the sources. Spec 4.2:
the fields are walked in declaration order, depth first, and the first
violation is returned; a field of the payload that the shape does not declare
is not looked at. -/
def validateFields : Shape → List (String × Value) → Option ConstraintViolation
  | [], _ => none
  | d :: rest, fields =>
    match validateField d fields with
    | some v => some v
    | none => validateFields rest fields
/-- Modelled from the spec: one field (spec 4.2). A missing field violates
`missing-required` when it is required; a present one `type-mismatch` when its
kind disagrees, then the bounds of a number and the enumeration of a string
are checked, and an object or an array of objects is validated against the
nested descriptor. -/
def validateField : Descriptor → List (String × Value) → Option ConstraintViolation
  | .mk name kind required min max allowed _ nested, fields =>
    match lookupField fields name with
    | none => if required then some ⟨[name], .missingRequired⟩ else none
    | some v =>
      if kindMatches kind v then
        match v with
        | .int n => atField name (checkBounds min max (n : Rat))
        | .float q => atField name (checkBounds min max q)
        | .str s => if allowed.any (fun vs => !vs.contains s) then some ⟨[name], .notInEnum⟩ else none
        | .obj fs => prefixPath name (validateFields nested fs)
        | .arr items =>
          prefixPath name (items.findSome? (fun item =>
            match item with
            | .obj fs => validateFields nested fs
            | _ => none))
        | _ => none
      else some ⟨[name], .typeMismatch⟩
end

/-- Modelled from the spec: the validator is not among the sources. The
`validate(schema, decodedValue)` of spec 4.2; a payload that is not an object
cannot be decoded into a shape. -/
def validate (shape : Shape) : Value → Option ConstraintViolation
  | .obj fields => validateFields shape fields
  | _ => some ⟨[], .malformedPayload⟩

/-- Modelled from the spec: `serv.UnmarshalAndCheckValue` is not among the
sources. The payload is decoded (`decode`, the JSON decoder, `none` when the
bytes are malformed) and then validated against the shape of the target. -/
def UnmarshalAndCheckValue (decode : Bytes → Option Value) (shape : Shape) (data : Bytes) :
    Except ConstraintViolation Value :=
  match decode data with
  | none => .error ⟨[], .malformedPayload⟩
  | some v =>
    match validate shape v with
    | some violation => .error violation
    | none => .ok v

/-! ## `examples/routeGuide/get_feature.go` -/

/-- The field `Latitude` of `Point` (line 9), read off its tags. The tags carry
no required or optional marker, and the spec gives both defaults, so the
required-ness is left open. -/
def latitudeField (required : Bool) : Descriptor :=
  .mk "latitude" .integer required (some 0) (some 90) none "latitude value" []

/-- The field `Longitude` of `Point` (line 10), read off its tags. -/
def longitudeField (required : Bool) : Descriptor :=
  .mk "longitude" .integer required (some 0) (some 180) none "longitude value" []

/-- The shape of `Point` (lines 8-11). -/
def PointShape (required : Bool) : Shape :=
  [latitudeField required, longitudeField required]

/-- The shape of `Feature` (lines 13-16). -/
def FeatureShape (required : Bool) : Shape :=
  [ .mk "Name" .string required none none
      (some ["GuangZhou", "Beijing", "Shenzhen", "Shanghai"]) "feature name" [],
    .mk "location" .object required none none none "location" (PointShape required) ]

/-- Source `Point` (lines 8-11). -/
structure Point where
  Latitude : Int
  Longitude : Int
  deriving DecidableEq, Repr

/-- The `Point` a decoded payload fills: a field that is absent keeps Go's zero. -/
def Point.ofValue : Value → Point
  | .obj fields =>
    { Latitude := match lookupField fields "latitude" with
        | some (.int n) => n
        | _ => 0
      Longitude := match lookupField fields "longitude" with
        | some (.int n) => n
        | _ => 0 }
  | _ => ⟨0, 0⟩

/-- A `Point` as the response value, under its JSON names. -/
def Point.toValue (p : Point) : Value :=
  .obj [("latitude", .int p.Latitude), ("longitude", .int p.Longitude)]

/-- A `&Feature{Name, Location}` as the response value, under its JSON names. -/
def Feature.toValue (name : String) (location : Point) : Value :=
  .obj [("Name", .str name), ("location", location.toValue)]

/-- Source `GetFeatureCall` (lines 27-37); `NewError` is `serv.NewError`, which
is not among the sources. The context is not used. -/
def GetFeatureCall (decode : Bytes → Option Value) (required : Bool)
    (NewError : ConstraintViolation → APIError) (data : Bytes) : Value × Option APIError :=
  match UnmarshalAndCheckValue decode (PointShape required) data with
  | .error err => (.null, some (NewError err))
  | .ok req => (Feature.toValue "Name1" (Point.ofValue req), none)

/-- Modelled from the spec: `serv.NewAPI` is not among the sources. It binds an
id, a summary, the two shapes and the handler into one record, whose `Call`
is the handler. -/
def NewAPI (id summary : String) (request response : Shape)
    (handler : Bytes → Context → Value × Option APIError) : API :=
  { Doc := { ID := id, Summary := summary, Request := request, Response := response }
    Call := fun data c => .ret c (handler data c).1 (handler data c).2 }

/-- Source `GetFeatureAPi` (lines 18-25). -/
def GetFeatureAPi (decode : Bytes → Option Value) (required : Bool)
    (NewError : ConstraintViolation → APIError) : API :=
  NewAPI "getFeature"
    "A feature with an empty name is returned if there\x27s no feature at the given\n\tposition"
    (PointShape required) (FeatureShape required)
    (fun data _ => GetFeatureCall decode required NewError data)

/-! ## Reading the log -/

/-- The context an outcome leaves. -/
def Outcome.context : Outcome → Context
  | .done c => c
  | .panic c _ => c

/-- Whether a panic left the handler of the route. -/
def Outcome.panicked : Outcome → Bool
  | .done _ => false
  | .panic _ _ => true

/-- The events logged between a context and the outcome of a run started on it. -/
def newEvents (c : Context) (o : Outcome) : List Event :=
  o.context.log.drop c.log.length

/-- A body written to the caller: `c.String` or `c.JSON`. -/
def Event.isReply : Event → Bool
  | .string _ _ => true
  | .json _ _ => true
  | _ => false

/-- An evaluation of `apiMap[id]`. -/
def Event.isLookup : Event → Bool
  | .lookup _ => true
  | _ => false

/-- An invocation of a handler. -/
def Event.isCall : Event → Bool
  | .call _ _ => true
  | _ => false

/-- A reply in the structured error shape: an `APIError`, code and message. -/
def Event.isStructuredError : Event → Bool
  | .json _ (.apiError (some _)) => true
  | _ => false

/-- The bodies written to the caller, in order. -/
def replies (events : List Event) : List Event :=
  events.filter Event.isReply

/-- The three headers `cors` sets. -/
def corsEvents (origin : String) : List Event :=
  [ .setHeader "Access-Control-Allow-Methods" "POST, GET, OPTIONS",
    .setHeader "Access-Control-Allow-Headers"
      "Access-Control-Allow-Origin,Access-Control-Allow-Method,Content-Type",
    .setHeader "Access-Control-Allow-Origin" origin ]

/-! ## Concrete inputs -/

/-- A handler that answers with the given text and no error. -/
def answering (text : String) : Bytes → Context → Value × Option APIError :=
  fun _ _ => (.str text, none)

/-- Two sets that both register the id "getFeature". -/
def duplicateSets : APISets :=
  [ [NewAPI "getFeature" "first" [] [] (answering "first")],
    [NewAPI "getFeature" "second" [] [] (answering "second")] ]

/-- Two sets with three records of distinct ids. -/
def distinctSets : APISets :=
  [ [NewAPI "getFeature" "first" [] [] (answering "first"),
     NewAPI "listFeatures" "second" [] [] (answering "second")],
    [NewAPI "routeChat" "third" [] [] (answering "third")] ]

/-- A service configuration. -/
def exampleConf : APIServConf :=
  { Version := "v1"
    BuildTime := ""
    ServiceName := "routeGuide"
    Description := "route guide"
    ListenAddr := ":8080"
    DebugOn := true
    HTTPProxy := "" }

/-- A library: lower-casing of the ASCII letters, and a default error code. -/
def exampleLib : Lib :=
  { ERROR_TYPE_DEFAULT := "default"
    ToLower := fun s => String.mk (s.data.map Char.toLower) }

/-- A request: its Content-Type header, the outcome of reading its body, and
the value of the route parameter "id". -/
def exampleContext (contentType : String) (body : Except String Bytes) (id : String) : Context :=
  { Request :=
      { Header := fun name => if name = "Content-Type" then contentType else ""
        Body := body }
    Param := fun name => if name = "id" then id else ""
    log := [] }

/-- The bytes of a text. -/
def bytesOf (text : String) : Bytes := text.data.map Char.toNat

/-- The payload of scenario 1, with longitude 200. -/
def scenario1Payload : Bytes := bytesOf "\x7b\"latitude\":45,\"longitude\":200\x7d"

/-- A payload at the two upper ends, latitude 90 and longitude 180. -/
def upperEndsPayload : Bytes := bytesOf "\x7b\"latitude\":90,\"longitude\":180\x7d"

/-- A payload at the two lower ends, latitude 0 and longitude 0. -/
def lowerEndsPayload : Bytes := bytesOf "\x7b\"latitude\":0,\"longitude\":0\x7d"

/-- A payload with the latitude over its maximum, latitude 91 and longitude 10. -/
def latitudeOverPayload : Bytes := bytesOf "\x7b\"latitude\":91,\"longitude\":10\x7d"

/-- A decoder that knows the payload of scenario 1 and the three payloads above. -/
def exampleDecode (data : Bytes) : Option Value :=
  if data = scenario1Payload then
    some (.obj [("latitude", .int 45), ("longitude", .int 200)])
  else if data = upperEndsPayload then
    some (.obj [("latitude", .int 90), ("longitude", .int 180)])
  else if data = lowerEndsPayload then
    some (.obj [("latitude", .int 0), ("longitude", .int 0)])
  else if data = latitudeOverPayload then
    some (.obj [("latitude", .int 91), ("longitude", .int 10)])
  else none

/-- The text of a reason. -/
def Reason.text : Reason → String
  | .missingRequired => "missing-required"
  | .typeMismatch => "type-mismatch"
  | .belowMin => "below-min"
  | .aboveMax => "above-max"
  | .notInEnum => "not-in-enum"
  | .malformedPayload => "malformed-payload"

/-- An error constructor: the default code, and the path and reason as message. -/
def exampleNewError (v : ConstraintViolation) : APIError :=
  { Code := "default", Message := ".".intercalate v.fieldPath ++ ": " ++ v.reason.text }

/-- The route-guide service: the one set with `GetFeatureAPi`. -/
def routeGuideSets : APISets := [[GetFeatureAPi exampleDecode true exampleNewError]]

/-- A record whose handler panics. -/
def panickingAPI : API :=
  { Doc := { ID := "getFeature", Summary := "panics", Request := [], Response := [] }
    Call := fun _ c => .panic c "index out of range" }

/-- A swagger generator whose JSON marshaller returns an error. -/
def failingMarshalLib : SwaggerLib (List String) String :=
  { genAPIDocList := fun _ sets => .ok (sets.flatten.map (fun a => a.Doc.ID))
    GenCode := fun conf docList => .ok (conf.ServiceName ++ " " ++ " ".intercalate docList)
    MarshalJSON := fun _ => .ok ("", some "json: unsupported value")
    MarshalYAML := fun swagger => .ok (swagger, none) }

/-- A swagger generator whose document generation panics. -/
def panickingSwaggerLib : SwaggerLib (List String) String :=
  { genAPIDocList := fun _ sets => .ok (sets.flatten.map (fun a => a.Doc.ID))
    GenCode := fun _ _ => .error "unresolvable type reference"
    MarshalJSON := fun swagger => .ok (swagger, none)
    MarshalYAML := fun swagger => .ok (swagger, none) }

/-! ## Go maps: lemmas -/

theorem mapGet_mapSet {V : Type} (m : GoMap V) (k : String) (v : V) (k' : String) :
    mapGet (mapSet m k v) k' = if k = k' then some v else mapGet m k' := by
  induction m with
  | nil => simp [mapSet, mapGet]
  | cons p t ih =>
    obtain ⟨k₀, v₀⟩ := p
    by_cases h : k₀ = k
    · subst h
      by_cases h' : k₀ = k' <;> simp [mapSet, mapGet, h']
    · by_cases h' : k₀ = k'
      · subst h'
        simp [mapSet, mapGet, h, Ne.symm h]
      · simp [mapSet, mapGet, h, h', ih]

theorem mem_mapKeys_iff {V : Type} (m : GoMap V) (k : String) :
    k ∈ mapKeys m ↔ (mapGet m k).isSome = true := by
  induction m with
  | nil => simp [mapKeys, mapGet]
  | cons p t ih =>
    obtain ⟨k₀, v₀⟩ := p
    by_cases h : k₀ = k
    · simp [mapKeys, mapGet, h]
    · have ih' : k ∈ List.map Prod.fst t ↔ (mapGet t k).isSome = true := ih
      simp [mapKeys, mapGet, h, Ne.symm h, ih']

theorem mapKeys_mapSet {V : Type} (m : GoMap V) (k : String) (v : V) (k' : String) :
    k' ∈ mapKeys (mapSet m k v) ↔ k' = k ∨ k' ∈ mapKeys m := by
  rw [mem_mapKeys_iff, mem_mapKeys_iff, mapGet_mapSet]
  by_cases h : k = k'
  · simp [h]
  · simp [h, Ne.symm h]

theorem nodup_mapKeys_mapSet {V : Type} (m : GoMap V) (k : String) (v : V)
    (h : (mapKeys m).Nodup) : (mapKeys (mapSet m k v)).Nodup := by
  induction m with
  | nil => simp [mapSet, mapKeys]
  | cons p t ih =>
    obtain ⟨k₀, v₀⟩ := p
    have ht : (mapKeys t).Nodup ∧ k₀ ∉ mapKeys t := by
      simpa [mapKeys, and_comm] using h
    by_cases hk : k₀ = k
    · subst hk
      simpa [mapSet, mapKeys] using h
    · have hmem : k₀ ∉ mapKeys (mapSet t k v) := by
        rw [mapKeys_mapSet]
        simp [hk, ht.2]
      have := ih ht.1
      simp only [mapSet, hk, if_false, mapKeys, List.map_cons, List.nodup_cons]
      exact ⟨hmem, this⟩

/-! ## `getApiMap`: lemmas -/

/-- The loop of `getApiMap` over the records of all sets, in order. -/
theorem getApiMap_eq_foldl (sets : APISets) :
    getApiMap sets = sets.flatten.foldl (fun m api => mapSet m api.Doc.ID api) [] := by
  unfold getApiMap
  rw [List.foldl_flatten]
  rfl

theorem mapGet_foldl_mapSet (l : List API) (m : GoMap API) (k : String) :
    mapGet (l.foldl (fun m api => mapSet m api.Doc.ID api) m) k =
      (l.reverse.find? (fun a => decide (a.Doc.ID = k))).or (mapGet m k) := by
  induction l generalizing m with
  | nil => simp
  | cons a t ih =>
    rw [List.foldl_cons, ih, mapGet_mapSet, List.reverse_cons, List.find?_append]
    cases hf : List.find? (fun a => decide (a.Doc.ID = k)) t.reverse with
    | some b => simp
    | none =>
      by_cases h : a.Doc.ID = k
      · simp [h]
      · simp [h]

theorem nodup_mapKeys_foldl (l : List API) (m : GoMap API) (h : (mapKeys m).Nodup) :
    (mapKeys (l.foldl (fun m api => mapSet m api.Doc.ID api) m)).Nodup := by
  induction l generalizing m with
  | nil => simpa using h
  | cons a t ih => exact ih _ (nodup_mapKeys_mapSet m _ _ h)

theorem find?_of_nodup_ids (l : List API) (a : API) (hn : (l.map (fun a => a.Doc.ID)).Nodup)
    (ha : a ∈ l) : l.find? (fun b => decide (b.Doc.ID = a.Doc.ID)) = some a := by
  induction l with
  | nil => simp at ha
  | cons b t ih =>
    rw [List.map_cons, List.nodup_cons] at hn
    rcases List.mem_cons.mp ha with rfl | hat
    · simp
    · have hne : b.Doc.ID ≠ a.Doc.ID := by
        intro he
        exact hn.1 (he ▸ List.mem_map_of_mem (fun a => a.Doc.ID) hat)
      simp [List.find?_cons, hne, ih hn.2 hat]

/-- What `getApiMap` holds under an id: the last record of the sets with the id. -/
theorem mapGet_getApiMap (sets : APISets) (k : String) :
    mapGet (getApiMap sets) k =
      sets.flatten.reverse.find? (fun a => decide (a.Doc.ID = k)) := by
  rw [getApiMap_eq_foldl, mapGet_foldl_mapSet]
  simp [mapGet]

/-! ## `runAPICall`: lemmas -/

theorem cors_log (c : Context) (origin : String) :
    (cors c origin).log = c.log ++ corsEvents origin := by
  simp [cors, Context.emit, corsEvents]

theorem newEvents_done (c c' : Context) (es : List Event) (h : c'.log = c.log ++ es) :
    newEvents c (.done c') = es := by
  simp [newEvents, Outcome.context, h]

/-- The run on a request whose content type is not JSON. -/
theorem runAPICall_not_json (lib : Lib) (apiMap : GoMap API) (c : Context) (key : String)
    (h : Contains (lib.ToLower (c.Request.Header "Content-Type")) "application/json" = false) :
    runAPICall lib apiMap c key =
      .done (handleError (cors c "*")
        (some { Code := lib.ERROR_TYPE_DEFAULT
                Message := "invalid content-type " ++
                  lib.ToLower (c.Request.Header "Content-Type") })) := by
  have h' : Contains (lib.ToLower ((cors c "*").Request.Header "Content-Type"))
      "application/json" = false := h
  simp only [runAPICall, h']
  rfl

/-- The run on a JSON request whose body cannot be read. -/
theorem runAPICall_unreadable (lib : Lib) (apiMap : GoMap API) (c : Context) (key : String)
    (err : String)
    (h : Contains (lib.ToLower (c.Request.Header "Content-Type")) "application/json" = true)
    (hb : c.Request.Body = .error err) :
    runAPICall lib apiMap c key =
      .done (handleError (cors c "*")
        (some { Code := lib.ERROR_TYPE_DEFAULT, Message := err })) := by
  have h' : Contains (lib.ToLower ((cors c "*").Request.Header "Content-Type"))
      "application/json" = true := h
  have hb' : (cors c "*").Request.Body = .error err := hb
  simp only [runAPICall, h', hb']
  rfl

/-- The run on a readable JSON request whose id is not a key. -/
theorem runAPICall_unknown (lib : Lib) (apiMap : GoMap API) (c : Context) (key : String)
    (body : Bytes)
    (h : Contains (lib.ToLower (c.Request.Header "Content-Type")) "application/json" = true)
    (hb : c.Request.Body = .ok body)
    (hm : mapGet apiMap (c.Param key) = none) :
    runAPICall lib apiMap c key =
      .done (handleNotFound ((cors c "*").emit (.lookup (c.Param key)))) := by
  have h' : Contains (lib.ToLower ((cors c "*").Request.Header "Content-Type"))
      "application/json" = true := h
  have hb' : (cors c "*").Request.Body = .ok body := hb
  have hm' : mapGet apiMap (((cors c "*").emit (.lookup ((cors c "*").Param key))).Param key)
      = none := hm
  simp only [runAPICall, h', hb', hm']
  rfl

/-- The run on a readable JSON request whose id is a key: the handler stored
under the id decides. -/
theorem runAPICall_registered (lib : Lib) (apiMap : GoMap API) (c : Context) (key : String)
    (body : Bytes) (api : API)
    (h : Contains (lib.ToLower (c.Request.Header "Content-Type")) "application/json" = true)
    (hb : c.Request.Body = .ok body)
    (hm : mapGet apiMap (c.Param key) = some api) :
    runAPICall lib apiMap c key =
      match api.Call body
          (((cors c "*").emit (.lookup (c.Param key))).emit (.call (c.Param key) body)) with
      | .panic c' value => .panic c' value
      | .ret c' response apiErr => .done (handleCall c' response apiErr) := by
  have h' : Contains (lib.ToLower ((cors c "*").Request.Header "Content-Type"))
      "application/json" = true := h
  have hb' : (cors c "*").Request.Body = .ok body := hb
  have hm' : mapGet apiMap (((cors c "*").emit (.lookup ((cors c "*").Param key))).Param key)
      = some api := hm
  simp only [runAPICall, h', hb', hm']
  rfl

/-! ## `getPath`, `getBasePath` -/

theorem string_append_cancel_left (a x y : String) (h : a ++ x = a ++ y) : x = y := by
  have hd := congrArg String.data h
  rw [String.data_append, String.data_append] at hd
  exact String.ext (List.append_cancel_left hd)

/-- C7: the documented path of an API is "/" + ServiceName + "/" + Version +
"/" + id, that is `getBasePath conf` followed by "/" and the id; the route that
`RunAPIServ` serves is `getBasePath conf` followed by "/" and the parameter
":id", so the path is the route with the id in the place of the parameter; and
for a fixed conf two ids with the same path are the same id. -/
theorem getPath_is_route_at_id (conf : APIServConf) (apiID : String) :
    getPath conf apiID = "/" ++ conf.ServiceName ++ "/" ++ conf.Version ++ "/" ++ apiID ∧
    getPath conf apiID = getBasePath conf ++ "/" ++ apiID ∧
    routePath conf = getBasePath conf ++ "/" ++ (":" ++ "id") ∧
    Function.Injective (getPath conf) := by
  refine ⟨rfl, rfl, ?_, ?_⟩
  · simp [routePath, Key, String.append_assoc]
  · intro x y h
    exact string_append_cancel_left _ x y h

/-- C7 at a concrete conf: two different ids have different paths. -/
theorem getPath_is_route_at_id_witness :
    getPath exampleConf "getFeature" = "/routeGuide/v1/getFeature" ∧
    getPath exampleConf "getFeature" ≠ getPath exampleConf "listFeatures" :=
  ⟨by decide,
   fun h => absurd ((getPath_is_route_at_id exampleConf "getFeature").2.2.2 h) (by decide)⟩

/-! ## `getApiMap` -/

/-- C1 (as stated, refuted): two sets register the same id "getFeature";
`getApiMap` returns a mapping all the same, with the one entry "getFeature",
and it is the second record: the first has been replaced. -/
theorem getApiMap_duplicate_replaces :
    duplicateSets.flatten.map (fun a => (a.Doc.ID, a.Doc.Summary)) =
      [("getFeature", "first"), ("getFeature", "second")] ∧
    (getApiMap duplicateSets).map (fun p => (p.1, p.2.Doc.Summary)) =
      [("getFeature", "second")] := by
  decide

/-- C1 (amended): `getApiMap` returns a mapping for every collection of sets,
and under each id the mapping holds the last record registered with that id,
in the order of the sets and of the records within a set; an id that no record
has is absent. -/
theorem getApiMap_last_wins (sets : APISets) (k : String) :
    mapGet (getApiMap sets) k =
      sets.flatten.reverse.find? (fun a => decide (a.Doc.ID = k)) :=
  mapGet_getApiMap sets k

/-- C8: the mapping of `getApiMap` is keyed by id. No key occurs twice; the
keys are exactly the ids of the records of the sets; every key maps to a record
of the sets that has this id; and when all ids are distinct every record is
found under its own id. -/
theorem getApiMap_keyed_by_id (sets : APISets) :
    (mapKeys (getApiMap sets)).Nodup ∧
    (∀ k, k ∈ mapKeys (getApiMap sets) ↔ ∃ a ∈ sets.flatten, a.Doc.ID = k) ∧
    (∀ k a, mapGet (getApiMap sets) k = some a → a ∈ sets.flatten ∧ a.Doc.ID = k) ∧
    ((sets.flatten.map (fun a => a.Doc.ID)).Nodup →
      ∀ a ∈ sets.flatten, mapGet (getApiMap sets) a.Doc.ID = some a) := by
  have hget := mapGet_getApiMap sets
  refine ⟨?_, ?_, ?_, ?_⟩
  · rw [getApiMap_eq_foldl]
    exact nodup_mapKeys_foldl _ _ (by simp [mapKeys])
  · intro k
    rw [mem_mapKeys_iff, hget, List.find?_isSome]
    simp
  · intro k a h
    rw [hget] at h
    have hm := List.mem_of_find?_eq_some h
    have hp := List.find?_some h
    exact ⟨by simpa using hm, by simpa using hp⟩
  · intro hn a ha
    rw [hget]
    apply find?_of_nodup_ids
    · rw [List.map_reverse]
      exact List.nodup_reverse.mpr hn
    · simpa using ha

/-- C8 at three records of distinct ids: each is found under its own id. -/
theorem getApiMap_keyed_by_id_witness :
    (distinctSets.flatten.map (fun a => a.Doc.ID)).Nodup ∧
    ∀ a ∈ distinctSets.flatten, mapGet (getApiMap distinctSets) a.Doc.ID = some a :=
  ⟨by decide, (getApiMap_keyed_by_id distinctSets).2.2.2 (by decide)⟩

/-! ## The validator on `Point` -/

theorem checkBounds_int (lo hi n : Int) :
    checkBounds (some lo) (some hi) (n : Rat) =
      if n < lo then some .belowMin else if hi < n then some .aboveMax else none := by
  simp [checkBounds]

theorem validateField_int (name : String) (required : Bool) (lo hi : Int)
    (allowed : Option (List String)) (desc : String) (nested : Shape)
    (fields : List (String × Value)) (n : Int)
    (h : lookupField fields name = some (.int n)) :
    validateField (.mk name .integer required (some lo) (some hi) allowed desc nested) fields =
      if n < lo then some ⟨[name], .belowMin⟩
      else if hi < n then some ⟨[name], .aboveMax⟩ else none := by
  simp only [validateField, h, kindMatches, if_true, checkBounds_int]
  split_ifs <;> rfl

/-- The `Point` that a decoded object with both numbers fills. -/
theorem Point.ofValue_obj (fields : List (String × Value)) (lat lon : Int)
    (hlat : lookupField fields "latitude" = some (.int lat))
    (hlon : lookupField fields "longitude" = some (.int lon)) :
    Point.ofValue (.obj fields) = ⟨lat, lon⟩ := by
  simp [Point.ofValue, hlat, hlon]

/-- C9: the bounds of `Point` are inclusive. A latitude under 0 or a longitude
under 0 is rejected as below-min, a latitude over 90 or a longitude over 180 as
above-max, and the violation names the field; a value from min to max,
with both ends included, passes the check of its field. A payload with both
numbers is accepted exactly when both are in range, and is otherwise rejected
at its first field out of range. `GetFeatureCall`, on every payload that
decodes to an object with both numbers, returns a nil response and the error of
that violation when a number is out of range, and otherwise, the ends 0, 90 and
180 included, the feature "Name1" at the point of the payload and no error. On
the payload of scenario 1, latitude 45 and longitude 200, it returns a nil
response and the error of the violation above-max at longitude. -/
theorem point_bounds_inclusive (required : Bool) :
    (∀ fields n, lookupField fields "latitude" = some (.int n) →
      validateField (latitudeField required) fields =
        if n < 0 then some ⟨["latitude"], .belowMin⟩
        else if 90 < n then some ⟨["latitude"], .aboveMax⟩ else none) ∧
    (∀ fields n, lookupField fields "longitude" = some (.int n) →
      validateField (longitudeField required) fields =
        if n < 0 then some ⟨["longitude"], .belowMin⟩
        else if 180 < n then some ⟨["longitude"], .aboveMax⟩ else none) ∧
    (∀ fields lat lon, lookupField fields "latitude" = some (.int lat) →
      lookupField fields "longitude" = some (.int lon) →
      validate (PointShape required) (.obj fields) =
        if lat < 0 then some ⟨["latitude"], .belowMin⟩
        else if 90 < lat then some ⟨["latitude"], .aboveMax⟩
        else if lon < 0 then some ⟨["longitude"], .belowMin⟩
        else if 180 < lon then some ⟨["longitude"], .aboveMax⟩
        else none) ∧
    (∀ fields lat lon, lookupField fields "latitude" = some (.int lat) →
      lookupField fields "longitude" = some (.int lon) →
      (validate (PointShape required) (.obj fields) = none ↔
        (0 ≤ lat ∧ lat ≤ 90) ∧ (0 ≤ lon ∧ lon ≤ 180))) ∧
    (∀ decode NewError data fields lat lon, decode data = some (.obj fields) →
      lookupField fields "latitude" = some (.int lat) →
      lookupField fields "longitude" = some (.int lon) →
      GetFeatureCall decode required NewError data =
        if lat < 0 then (.null, some (NewError ⟨["latitude"], .belowMin⟩))
        else if 90 < lat then (.null, some (NewError ⟨["latitude"], .aboveMax⟩))
        else if lon < 0 then (.null, some (NewError ⟨["longitude"], .belowMin⟩))
        else if 180 < lon then (.null, some (NewError ⟨["longitude"], .aboveMax⟩))
        else (Feature.toValue "Name1" ⟨lat, lon⟩, none)) ∧
    (∀ decode NewError data fields lat lon, decode data = some (.obj fields) →
      lookupField fields "latitude" = some (.int lat) →
      lookupField fields "longitude" = some (.int lon) →
      ((GetFeatureCall decode required NewError data).2 = none ↔
        (0 ≤ lat ∧ lat ≤ 90) ∧ (0 ≤ lon ∧ lon ≤ 180))) ∧
    (∀ decode NewError data,
      decode data = some (.obj [("latitude", .int 45), ("longitude", .int 200)]) →
      GetFeatureCall decode required NewError data =
        (.null, some (NewError ⟨["longitude"], .aboveMax⟩))) := by
  have hpayload : ∀ fields lat lon, lookupField fields "latitude" = some (.int lat) →
      lookupField fields "longitude" = some (.int lon) →
      validate (PointShape required) (.obj fields) =
        if lat < 0 then some ⟨["latitude"], .belowMin⟩
        else if 90 < lat then some ⟨["latitude"], .aboveMax⟩
        else if lon < 0 then some ⟨["longitude"], .belowMin⟩
        else if 180 < lon then some ⟨["longitude"], .aboveMax⟩
        else none := by
    intro fields lat lon hlat hlon
    have h1 := validateField_int "latitude" required 0 90 none "latitude value" [] fields lat hlat
    have h2 := validateField_int "longitude" required 0 180 none "longitude value" [] fields lon
      hlon
    simp only [validate, PointShape, validateFields, latitudeField, longitudeField, h1, h2]
    split_ifs <;> rfl
  have hcall : ∀ (decode : Bytes → Option Value) (NewError : ConstraintViolation → APIError)
      (data : Bytes) (fields : List (String × Value)) (lat lon : Int),
      decode data = some (.obj fields) →
      lookupField fields "latitude" = some (.int lat) →
      lookupField fields "longitude" = some (.int lon) →
      GetFeatureCall decode required NewError data =
        if lat < 0 then (.null, some (NewError ⟨["latitude"], .belowMin⟩))
        else if 90 < lat then (.null, some (NewError ⟨["latitude"], .aboveMax⟩))
        else if lon < 0 then (.null, some (NewError ⟨["longitude"], .belowMin⟩))
        else if 180 < lon then (.null, some (NewError ⟨["longitude"], .aboveMax⟩))
        else (Feature.toValue "Name1" ⟨lat, lon⟩, none) := by
    intro decode NewError data fields lat lon hd hlat hlon
    have hv := hpayload fields lat lon hlat hlon
    have hp := Point.ofValue_obj fields lat lon hlat hlon
    simp only [GetFeatureCall, UnmarshalAndCheckValue, hd, hv]
    split_ifs <;> simp only [hp]
  refine ⟨?_, ?_, hpayload, ?_, hcall, ?_, ?_⟩
  · intro fields n h
    exact validateField_int "latitude" required 0 90 none "latitude value" [] fields n h
  · intro fields n h
    exact validateField_int "longitude" required 0 180 none "longitude value" [] fields n h
  · intro fields lat lon hlat hlon
    rw [hpayload fields lat lon hlat hlon]
    split_ifs <;> simp <;> omega
  · intro decode NewError data fields lat lon hd hlat hlon
    rw [hcall decode NewError data fields lat lon hd hlat hlon]
    split_ifs <;> simp <;> omega
  · intro decode NewError data hd
    exact hcall decode NewError data _ 45 200 hd rfl rfl

/-- C9 on concrete payloads through `GetFeatureCall`: the payload of scenario 1
is rejected at longitude, a latitude of 91 is rejected at latitude, and the
payloads at the upper ends 90 and 180 and at the lower ends 0 and 0 are
accepted and answered with the feature at that point. -/
theorem point_bounds_inclusive_witness :
    (exampleDecode scenario1Payload =
        some (.obj [("latitude", .int 45), ("longitude", .int 200)]) ∧
      GetFeatureCall exampleDecode true exampleNewError scenario1Payload =
        (.null, some ⟨"default", "longitude: above-max"⟩)) ∧
    validate (PointShape true) (.obj [("latitude", .int 90), ("longitude", .int 180)]) = none ∧
    (exampleDecode upperEndsPayload =
        some (.obj [("latitude", .int 90), ("longitude", .int 180)]) ∧
      GetFeatureCall exampleDecode true exampleNewError upperEndsPayload =
        (Feature.toValue "Name1" ⟨90, 180⟩, none)) ∧
    (exampleDecode lowerEndsPayload =
        some (.obj [("latitude", .int 0), ("longitude", .int 0)]) ∧
      GetFeatureCall exampleDecode true exampleNewError lowerEndsPayload =
        (Feature.toValue "Name1" ⟨0, 0⟩, none)) ∧
    (exampleDecode latitudeOverPayload =
        some (.obj [("latitude", .int 91), ("longitude", .int 10)]) ∧
      GetFeatureCall exampleDecode true exampleNewError latitudeOverPayload =
        (.null, some ⟨"default", "latitude: above-max"⟩)) :=
  ⟨⟨rfl, (point_bounds_inclusive true).2.2.2.2.2.2 exampleDecode exampleNewError
      scenario1Payload rfl⟩,
   ((point_bounds_inclusive true).2.2.2.1 [("latitude", .int 90), ("longitude", .int 180)]
      90 180 rfl rfl).mpr (by decide),
   ⟨rfl, (point_bounds_inclusive true).2.2.2.2.1 exampleDecode exampleNewError
      upperEndsPayload _ 90 180 rfl rfl rfl⟩,
   ⟨rfl, (point_bounds_inclusive true).2.2.2.2.1 exampleDecode exampleNewError
      lowerEndsPayload _ 0 0 rfl rfl rfl⟩,
   ⟨rfl, (point_bounds_inclusive true).2.2.2.2.1 exampleDecode exampleNewError
      latitudeOverPayload _ 91 10 rfl rfl rfl⟩⟩

/-! ## `runAPICall` -/

theorem handleError_log (c : Context) (e : Option APIError) :
    (handleError c e).log =
      c.log ++ [.setHeader "content-type" "application/json", .json 403 (.apiError e)] := by
  simp [handleError, Context.emit]

theorem handleCall_log (c : Context) (response : Value) (e : Option APIError) :
    (handleCall c response e).log =
      c.log ++ [.setHeader "content-type" "application/json",
        .json 200 (.response response)] := by
  simp [handleCall, Context.emit]

theorem handleNotFound_log (c : Context) :
    (handleNotFound c).log = c.log ++ [.string 500 ""] := by
  simp [handleNotFound, Context.emit]

/-- The events of a run that ends in `handleError`. -/
theorem newEvents_handleError (c : Context) (e : Option APIError) :
    newEvents c (.done (handleError (cors c "*") e)) =
      corsEvents "*" ++
        [.setHeader "content-type" "application/json", .json 403 (.apiError e)] := by
  apply newEvents_done
  rw [handleError_log, cors_log, List.append_assoc]

/-- The events of a run that ends in `handleNotFound`. -/
theorem newEvents_handleNotFound (c : Context) (id : String) :
    newEvents c (.done (handleNotFound ((cors c "*").emit (.lookup id)))) =
      corsEvents "*" ++ [.lookup id, .string 500 ""] := by
  apply newEvents_done
  rw [handleNotFound_log]
  simp [Context.emit, cors_log]

/-- C10: a request whose lower-cased Content-Type does not contain
"application/json" is answered, whatever the mapping holds, with status 403 and
the `APIError` of the default code whose message is "invalid content-type "
followed by the lower-cased header value; the run sets the CORS headers and the
content type of the reply and does nothing else: it looks no id up and invokes
no handler, and no panic leaves it. -/
theorem runAPICall_invalid_content_type (lib : Lib) (apiMap : GoMap API) (c : Context)
    (key : String)
    (h : Contains (lib.ToLower (c.Request.Header "Content-Type")) "application/json" = false) :
    (runAPICall lib apiMap c key).panicked = false ∧
    newEvents c (runAPICall lib apiMap c key) =
      corsEvents "*" ++
        [.setHeader "content-type" "application/json",
         .json 403 (.apiError (some
           { Code := lib.ERROR_TYPE_DEFAULT
             Message := "invalid content-type " ++
               lib.ToLower (c.Request.Header "Content-Type") }))] ∧
    (∀ e ∈ newEvents c (runAPICall lib apiMap c key), e.isLookup = false ∧ e.isCall = false) := by
  rw [runAPICall_not_json lib apiMap c key h, newEvents_handleError]
  refine ⟨rfl, rfl, ?_⟩
  intro e he
  simp [corsEvents] at he
  rcases he with rfl | rfl | rfl | rfl | rfl <;> exact ⟨rfl, rfl⟩

/-- C10 on a request for the registered "getFeature" sent as Text/Plain. -/
theorem runAPICall_invalid_content_type_witness :
    Contains (exampleLib.ToLower
        ((exampleContext "Text/Plain" (.ok scenario1Payload) "getFeature").Request.Header
          "Content-Type")) "application/json" = false ∧
    replies (newEvents (exampleContext "Text/Plain" (.ok scenario1Payload) "getFeature")
        (runAPICall exampleLib (getApiMap routeGuideSets)
          (exampleContext "Text/Plain" (.ok scenario1Payload) "getFeature") Key)) =
      [.json 403 (.apiError (some ⟨"default", "invalid content-type text/plain"⟩))] :=
  ⟨by decide,
   (congrArg replies (runAPICall_invalid_content_type exampleLib (getApiMap routeGuideSets)
      (exampleContext "Text/Plain" (.ok scenario1Payload) "getFeature") Key
      (by decide)).2.1).trans rfl⟩

/-- C4 (as stated, refuted): the id "noSuchApi" is not a key of the mapping, but
the request is sent as text/plain, and the reply is the 403 content-type error,
not the not-found reply of `handleNotFound`. -/
theorem unknown_id_as_text_gets_403 :
    mapGet (getApiMap routeGuideSets)
      ((exampleContext "text/plain" (.ok []) "noSuchApi").Param Key) = none ∧
    replies (newEvents (exampleContext "text/plain" (.ok []) "noSuchApi")
        (runAPICall exampleLib (getApiMap routeGuideSets)
          (exampleContext "text/plain" (.ok []) "noSuchApi") Key)) =
      [.json 403 (.apiError (some ⟨"default", "invalid content-type text/plain"⟩))] ∧
    replies (newEvents (exampleContext "text/plain" (.ok []) "noSuchApi")
        (runAPICall exampleLib (getApiMap routeGuideSets)
          (exampleContext "text/plain" (.ok []) "noSuchApi") Key)) ≠
      replies (newEvents (exampleContext "text/plain" (.ok []) "noSuchApi")
        (.done (handleNotFound (exampleContext "text/plain" (.ok []) "noSuchApi")))) := by
  refine ⟨rfl, rfl, ?_⟩
  intro h
  have h' : [Event.json 403 (.apiError (some ⟨"default", "invalid content-type text/plain"⟩))]
      = [Event.string 500 ""] := h
  simp at h'

/-- C4 (amended): when the id parameter is not a key of the mapping,
`runAPICall` invokes no handler, whatever the rest of the request is; and when
moreover the Content-Type contains "application/json" and the body can be read,
it looks the id up and answers with the not-found reply of `handleNotFound`,
status 500 and an empty text. -/
theorem runAPICall_unknown_id (lib : Lib) (apiMap : GoMap API) (c : Context) (key : String)
    (hm : mapGet apiMap (c.Param key) = none) :
    (∀ e ∈ newEvents c (runAPICall lib apiMap c key), e.isCall = false) ∧
    (Contains (lib.ToLower (c.Request.Header "Content-Type")) "application/json" = true →
      ∀ body, c.Request.Body = .ok body →
        runAPICall lib apiMap c key =
          .done (handleNotFound ((cors c "*").emit (.lookup (c.Param key)))) ∧
        newEvents c (runAPICall lib apiMap c key) =
          corsEvents "*" ++ [.lookup (c.Param key), .string 500 ""]) := by
  have hnf : ∀ body, Contains (lib.ToLower (c.Request.Header "Content-Type"))
        "application/json" = true → c.Request.Body = .ok body →
      runAPICall lib apiMap c key =
          .done (handleNotFound ((cors c "*").emit (.lookup (c.Param key)))) ∧
        newEvents c (runAPICall lib apiMap c key) =
          corsEvents "*" ++ [.lookup (c.Param key), .string 500 ""] := by
    intro body h hb
    rw [runAPICall_unknown lib apiMap c key body h hb hm, newEvents_handleNotFound]
    exact ⟨rfl, rfl⟩
  refine ⟨?_, fun h body hb => hnf body h hb⟩
  intro e he
  cases h : Contains (lib.ToLower (c.Request.Header "Content-Type")) "application/json" with
  | false =>
    rw [runAPICall_not_json lib apiMap c key h, newEvents_handleError] at he
    simp [corsEvents] at he
    rcases he with rfl | rfl | rfl | rfl | rfl <;> rfl
  | true =>
    cases hb : c.Request.Body with
    | error err =>
      rw [runAPICall_unreadable lib apiMap c key err h hb, newEvents_handleError] at he
      simp [corsEvents] at he
      rcases he with rfl | rfl | rfl | rfl | rfl <;> rfl
    | ok body =>
      rw [(hnf body h hb).2] at he
      simp [corsEvents] at he
      rcases he with rfl | rfl | rfl | rfl | rfl <;> rfl

/-- C4 (amended) on a JSON request for the id "noSuchApi". -/
theorem runAPICall_unknown_id_witness :
    mapGet (getApiMap routeGuideSets)
      ((exampleContext "application/json" (.ok scenario1Payload) "noSuchApi").Param Key)
      = none ∧
    newEvents (exampleContext "application/json" (.ok scenario1Payload) "noSuchApi")
        (runAPICall exampleLib (getApiMap routeGuideSets)
          (exampleContext "application/json" (.ok scenario1Payload) "noSuchApi") Key) =
      corsEvents "*" ++ [.lookup "noSuchApi", .string 500 ""] :=
  ⟨rfl,
   ((runAPICall_unknown_id exampleLib (getApiMap routeGuideSets)
      (exampleContext "application/json" (.ok scenario1Payload) "noSuchApi") Key rfl).2
      (by decide) scenario1Payload rfl).2⟩

/-- C5 (as stated, refuted): a readable JSON request for the unknown id
"noSuchApi" is answered with status 500 and an empty text, which is not in the
shape of a structured error, code and message. -/
theorem not_found_reply_is_unstructured :
    replies (newEvents (exampleContext "application/json" (.ok []) "noSuchApi")
        (runAPICall exampleLib (getApiMap routeGuideSets)
          (exampleContext "application/json" (.ok []) "noSuchApi") Key)) =
      [.string 500 ""] ∧
    (replies (newEvents (exampleContext "application/json" (.ok []) "noSuchApi")
        (runAPICall exampleLib (getApiMap routeGuideSets)
          (exampleContext "application/json" (.ok []) "noSuchApi") Key))).all
      Event.isStructuredError = false :=
  ⟨rfl, rfl⟩

/-- C5 (amended): the replies to an unsupported content type and to a body that
cannot be read are structured errors, status 403 with an `APIError` that has
the default code and a message (the content-type text, or the text of the read
error); the reply to an unknown API identifier is status 500 with an empty
text, no code and no message. Each is the only body the run writes. -/
theorem runAPICall_error_replies (lib : Lib) (apiMap : GoMap API) (c : Context)
    (key : String) :
    (Contains (lib.ToLower (c.Request.Header "Content-Type")) "application/json" = false →
      replies (newEvents c (runAPICall lib apiMap c key)) =
        [.json 403 (.apiError (some
          { Code := lib.ERROR_TYPE_DEFAULT
            Message := "invalid content-type " ++
              lib.ToLower (c.Request.Header "Content-Type") }))]) ∧
    (Contains (lib.ToLower (c.Request.Header "Content-Type")) "application/json" = true →
      ∀ err, c.Request.Body = .error err →
        replies (newEvents c (runAPICall lib apiMap c key)) =
          [.json 403 (.apiError (some { Code := lib.ERROR_TYPE_DEFAULT, Message := err }))]) ∧
    (Contains (lib.ToLower (c.Request.Header "Content-Type")) "application/json" = true →
      ∀ body, c.Request.Body = .ok body → mapGet apiMap (c.Param key) = none →
        replies (newEvents c (runAPICall lib apiMap c key)) = [.string 500 ""]) := by
  refine ⟨?_, ?_, ?_⟩
  · intro h
    rw [runAPICall_not_json lib apiMap c key h, newEvents_handleError]
    rfl
  · intro h err hb
    rw [runAPICall_unreadable lib apiMap c key err h hb, newEvents_handleError]
    rfl
  · intro h body hb hm
    rw [runAPICall_unknown lib apiMap c key body h hb hm, newEvents_handleNotFound]
    rfl

/-- C5 (amended) on three requests: one sent as text/xml, one whose body cannot
be read, one for the id "noSuchApi". -/
theorem runAPICall_error_replies_witness :
    replies (newEvents (exampleContext "text/xml" (.ok []) "getFeature")
        (runAPICall exampleLib (getApiMap routeGuideSets)
          (exampleContext "text/xml" (.ok []) "getFeature") Key)) =
      [.json 403 (.apiError (some ⟨"default", "invalid content-type text/xml"⟩))] ∧
    replies (newEvents (exampleContext "application/json" (.error "unexpected EOF") "getFeature")
        (runAPICall exampleLib (getApiMap routeGuideSets)
          (exampleContext "application/json" (.error "unexpected EOF") "getFeature") Key)) =
      [.json 403 (.apiError (some ⟨"default", "unexpected EOF"⟩))] ∧
    replies (newEvents (exampleContext "application/json" (.ok scenario1Payload) "noSuchApi")
        (runAPICall exampleLib (getApiMap routeGuideSets)
          (exampleContext "application/json" (.ok scenario1Payload) "noSuchApi") Key)) =
      [.string 500 ""] :=
  ⟨(runAPICall_error_replies exampleLib (getApiMap routeGuideSets)
      (exampleContext "text/xml" (.ok []) "getFeature") Key).1 (by decide),
   (runAPICall_error_replies exampleLib (getApiMap routeGuideSets)
      (exampleContext "application/json" (.error "unexpected EOF") "getFeature") Key).2.1
      (by decide) "unexpected EOF" rfl,
   (runAPICall_error_replies exampleLib (getApiMap routeGuideSets)
      (exampleContext "application/json" (.ok scenario1Payload) "noSuchApi") Key).2.2
      (by decide) scenario1Payload rfl rfl⟩

/-- C3 (as stated, refuted): the handler registered under "getFeature" panics;
the panic leaves `runAPICall`, which has written no reply. -/
theorem runAPICall_handler_panic_escapes :
    (runAPICall exampleLib (getApiMap [[panickingAPI]])
        (exampleContext "application/json" (.ok []) "getFeature") Key).panicked = true ∧
    replies (newEvents (exampleContext "application/json" (.ok []) "getFeature")
        (runAPICall exampleLib (getApiMap [[panickingAPI]])
          (exampleContext "application/json" (.ok []) "getFeature") Key)) = [] :=
  ⟨rfl, rfl⟩

/-- C3 (amended): `runAPICall` does not catch a panic of the handler. When the
handler of a readable JSON request to a registered id panics, the panic leaves
`runAPICall` with its value unchanged, and `runAPICall` does nothing after it:
the context is as the handler left it. -/
theorem runAPICall_panic_propagates (lib : Lib) (apiMap : GoMap API) (c : Context)
    (key : String) (body : Bytes) (api : API) (c' : Context) (value : String)
    (h : Contains (lib.ToLower (c.Request.Header "Content-Type")) "application/json" = true)
    (hb : c.Request.Body = .ok body)
    (hm : mapGet apiMap (c.Param key) = some api)
    (hcall : api.Call body
        (((cors c "*").emit (.lookup (c.Param key))).emit (.call (c.Param key) body)) =
      .panic c' value) :
    runAPICall lib apiMap c key = .panic c' value := by
  rw [runAPICall_registered lib apiMap c key body api h hb hm, hcall]

/-- C3 (amended) on the panicking handler: its panic value comes out of the run. -/
theorem runAPICall_panic_propagates_witness :
    mapGet (getApiMap [[panickingAPI]])
      ((exampleContext "application/json" (.ok scenario1Payload) "getFeature").Param Key) =
      some panickingAPI ∧
    runAPICall exampleLib (getApiMap [[panickingAPI]])
        (exampleContext "application/json" (.ok scenario1Payload) "getFeature") Key =
      .panic ((((cors (exampleContext "application/json" (.ok scenario1Payload) "getFeature")
          "*").emit (.lookup "getFeature")).emit (.call "getFeature" scenario1Payload)))
        "index out of range" :=
  ⟨rfl,
   runAPICall_panic_propagates exampleLib (getApiMap [[panickingAPI]])
     (exampleContext "application/json" (.ok scenario1Payload) "getFeature") Key
     scenario1Payload panickingAPI _ "index out of range" (by decide) rfl rfl rfl⟩

/-- The run on a readable JSON request to a registered id whose handler returns
the error `e`: the reply is written by `handleCall`, and it is the reply of a
handler that returned no error. -/
theorem runAPICall_handler_error (lib : Lib) (apiMap : GoMap API) (c : Context)
    (key : String) (body : Bytes) (api : API) (c' : Context) (response : Value) (e : APIError)
    (h : Contains (lib.ToLower (c.Request.Header "Content-Type")) "application/json" = true)
    (hb : c.Request.Body = .ok body)
    (hm : mapGet apiMap (c.Param key) = some api)
    (hcall : api.Call body
        (((cors c "*").emit (.lookup (c.Param key))).emit (.call (c.Param key) body)) =
      .ret c' response (some e)) :
    runAPICall lib apiMap c key = .done (handleCall c' response (some e)) ∧
    handleCall c' response (some e) = handleCall c' response none ∧
    (handleCall c' response (some e)).log =
      c'.log ++ [.setHeader "content-type" "application/json",
        .json 200 (.response response)] := by
  rw [runAPICall_registered lib apiMap c key body api h hb hm, hcall]
  exact ⟨rfl, rfl, handleCall_log _ _ _⟩

/-- C2 (the code at the failing input): the payload of scenario 1 is posted as
JSON to "getFeature"; `GetFeatureCall` returns a nil response and the error
"longitude: above-max", and the run replies with status 200 and the nil
response: the error is in no event of the run. -/
theorem runAPICall_drops_handler_error :
    GetFeatureCall exampleDecode true exampleNewError scenario1Payload =
      (.null, some ⟨"default", "longitude: above-max"⟩) ∧
    (runAPICall exampleLib (getApiMap routeGuideSets)
        (exampleContext "application/json" (.ok scenario1Payload) "getFeature") Key).panicked
      = false ∧
    newEvents (exampleContext "application/json" (.ok scenario1Payload) "getFeature")
        (runAPICall exampleLib (getApiMap routeGuideSets)
          (exampleContext "application/json" (.ok scenario1Payload) "getFeature") Key) =
      corsEvents "*" ++
        [.lookup "getFeature", .call "getFeature" scenario1Payload,
         .setHeader "content-type" "application/json", .json 200 (.response .null)] :=
  ⟨rfl, rfl, rfl⟩

/-! ## `genSwagger` -/

/-- A panic anywhere in the body of `genSwagger` is recovered: the result is
the two empty strings and the error "internal error: " with the panic value,
which `initHTML` prints as its warning. -/
theorem genSwagger_recovers_panic {DocList Swagger : Type} (sw : SwaggerLib DocList Swagger)
    (conf : APIServConf) (sets : APISets) (p : String)
    (h : genSwaggerBody sw conf sets = .error p) :
    genSwagger sw conf sets = ("", "", some ("internal error: " ++ p)) ∧
    initHTMLPrinted sw conf sets = ["Warn:  " ++ ("internal error: " ++ p)] := by
  simp [genSwagger, initHTMLPrinted, h]

/-- An error of the JSON marshaller: `genSwagger` returns the two empty strings
and a nil error. -/
theorem genSwagger_marshalJSON_error {DocList Swagger : Type} (sw : SwaggerLib DocList Swagger)
    (conf : APIServConf) (sets : APISets) (docList : DocList) (swagger : Swagger)
    (jsonData err : String)
    (h1 : sw.genAPIDocList conf sets = .ok docList)
    (h2 : sw.GenCode (toCommonConf conf) docList = .ok swagger)
    (h3 : sw.MarshalJSON swagger = .ok (jsonData, some err)) :
    genSwagger sw conf sets = ("", "", none) := by
  simp [genSwagger, genSwaggerBody, h1, h2, h3]

/-- An error of the YAML marshaller: `genSwagger` returns the two empty strings
and a nil error. -/
theorem genSwagger_marshalYAML_error {DocList Swagger : Type} (sw : SwaggerLib DocList Swagger)
    (conf : APIServConf) (sets : APISets) (docList : DocList) (swagger : Swagger)
    (jsonData yamlData err : String)
    (h1 : sw.genAPIDocList conf sets = .ok docList)
    (h2 : sw.GenCode (toCommonConf conf) docList = .ok swagger)
    (h3 : sw.MarshalJSON swagger = .ok (jsonData, none))
    (h4 : sw.MarshalYAML swagger = .ok (yamlData, some err)) :
    genSwagger sw conf sets = ("", "", none) := by
  simp [genSwagger, genSwaggerBody, h1, h2, h3, h4]

/-- C6 (the code at the failing input): the JSON marshaller returns an error;
`genSwagger` returns the two empty strings and a nil error, and `initHTML`
prints no warning. A panic of the generator, in contrast, comes back as a
non-nil error and is printed. -/
theorem genSwagger_marshal_error_is_nil :
    genSwagger failingMarshalLib exampleConf routeGuideSets = ("", "", none) ∧
    initHTMLPrinted failingMarshalLib exampleConf routeGuideSets = [] ∧
    genSwagger panickingSwaggerLib exampleConf routeGuideSets =
      ("", "", some "internal error: unresolvable type reference") ∧
    initHTMLPrinted panickingSwaggerLib exampleConf routeGuideSets =
      ["Warn:  internal error: unresolvable type reference"] := by
  decide

end EasyApi
